import Mathlib

/-!
Shallow embedding of the AstrologyChartAPI repository (src/main.py and
src/main_arabic.py).  Python floats are modelled as rationals, Python lists
and tuples as Lean lists, dictionaries built in insertion order as
association lists, and each external collaborator (Swiss Ephemeris,
OpenCage geocoder) as an oracle passed in as a function argument; a raised
Python exception is modelled as `none` / `Except.error`.
-/

/-- `ARABIC_ZODIAC_SIGNS` (main.py lines 10-13, main_arabic.py lines 18-21):
the twelve zodiac sign names, Aries first. -/
def ARABIC_ZODIAC_SIGNS : List String :=
  ["الحمل", "الثور", "الجوزاء", "السرطان", "الأسد", "العذراء",
   "الميزان", "العقرب", "القوس", "الجدي", "الدلو", "الحوت"]

/-- Python list subscription `l[i]` for an integer index: nonnegative
indices read from the front, negative indices count from the end
(`l[-1]` is the last element); an out-of-bounds index raises `IndexError`,
modelled as `none`. -/
def pyListGet (l : List String) (i : ℤ) : Option String :=
  if 0 ≤ i then l.get? i.toNat
  else if -i ≤ (l.length : ℤ) then l.get? (l.length - (-i).toNat) else none

/-- `get_arabic_zodiac_sign` (main.py lines 38-39, main_arabic.py lines
48-49): `ARABIC_ZODIAC_SIGNS[int(degree // 30)]`.  Python float floor
division `degree // 30` is `⌊degree / 30⌋` and `int(...)` of that integral
float is the same integer. -/
def get_arabic_zodiac_sign (degree : ℚ) : Option String :=
  pyListGet ARABIC_ZODIAC_SIGNS ⌊degree / 30⌋

/-- `PLANETS_ARABIC` (main.py lines 16-27, main_arabic.py lines 24-35):
an insertion-ordered dict keyed by the Swiss Ephemeris body constants
`swe.SUN = 0`, `swe.MOON = 1`, ..., `swe.PLUTO = 9`. -/
def PLANETS_ARABIC : List (ℕ × String) :=
  [(0, "الشمس"), (1, "القمر"), (2, "عطارد"), (3, "الزهرة"), (4, "المريخ"),
   (5, "المشتري"), (6, "زحل"), (7, "أورانوس"), (8, "نبتون"), (9, "بلوتو")]

/-- Python `round(x, 2)`: round half to even at two decimal places
(exact-decimal behaviour of `round` on the modelled rational values). -/
def pyRound2 (x : ℚ) : ℚ :=
  let y := x * 100
  let f := ⌊y⌋
  let r := y - (f : ℚ)
  let n : ℤ :=
    if r < 1/2 then f
    else if 1/2 < r then f + 1
    else if f % 2 = 0 then f else f + 1
  (n : ℚ) / 100

/-- A Python value occupying one slot of the tuple returned by the
`swe.calc_ut` collaborator: an integer (status flag), a list/tuple of
floats (position data), or something else entirely. -/
inductive PyVal where
  | int (n : ℤ)
  | seq (xs : List ℚ)
  | other
deriving DecidableEq

/-- One reply of the `swe.calc_ut` collaborator, the two-tuple that
main_arabic.py line 56 unpacks as `pos, ret_code = swe.calc_ut(...)`. -/
structure EphReply where
  pos : PyVal
  ret_code : PyVal
deriving DecidableEq

/-- One entry of the `planets` dict built by
`calculate_planetary_positions` in main_arabic.py: either a
position/zodiac-sign record or an error record. -/
inductive BodyRecord where
  | ok (position : ℚ) (zodiac_sign : String)
  | err (msg : String)
deriving DecidableEq

/-- main_arabic.py lines 67-87: position-data validation (`pos` must be a
nonempty list/tuple), then `degree = pos[0]`, zodiac lookup and rounding
inside `try`; an exception there (the zodiac `IndexError`) is caught and
recorded as an error entry. -/
def checkPos : PyVal → BodyRecord
  | PyVal.seq (d :: _) =>
    match get_arabic_zodiac_sign d with
    | some z => BodyRecord.ok (pyRound2 d) z
    | none => BodyRecord.err "Error processing position: list index out of range"
  | _ => BodyRecord.err "Invalid position data"

/-- main_arabic.py lines 56-87: handling of one ephemeris reply — the
`ret_code` check (`not isinstance(ret_code, int) or ret_code < 0`) and then
the position handling of `checkPos`. -/
def processBody (r : EphReply) : BodyRecord :=
  match r.ret_code with
  | PyVal.int n => if n < 0 then BodyRecord.err "Calculation error" else checkPos r.pos
  | _ => BodyRecord.err "Calculation error"

/-- The ephemeris reply shapes that main_arabic.py treats as a signalled
calculation failure: a non-integer or negative status, or position data
that is not a nonempty list/tuple. -/
def signalsFailure (r : EphReply) : Bool :=
  (match r.ret_code with
   | PyVal.int n => decide (n < 0)
   | _ => true) ||
  (match r.pos with
   | PyVal.seq (_ :: _) => false
   | _ => true)

/-- `calculate_planetary_positions` (main_arabic.py lines 52-88): iterate
`PLANETS_ARABIC` in insertion order, query the ephemeris oracle per body,
and record one entry per body — errors are recorded, never raised. -/
def calculate_planetary_positions (eph : ℚ → ℕ → EphReply) (julian_day : ℚ) :
    List (String × BodyRecord) :=
  PLANETS_ARABIC.map (fun p => (p.2, processBody (eph julian_day p.1)))

/-- Python `v[0]` on an arbitrary value: succeeds only on a nonempty
list/tuple; on an `int` it raises `TypeError`, on an empty sequence
`IndexError` (both modelled as `none`). -/
def pySubscript0 (v : PyVal) : Option ℚ :=
  match v with
  | PyVal.seq (x :: _) => some x
  | _ => none

/-- main.py lines 42-51, the loop body of its `calculate_planetary_positions`:
`_, pos = swe.calc_ut(julian_day, planet)` binds the local `pos` to the
SECOND slot of the collaborator tuple (the slot main_arabic.py line 56
names `ret_code`), then `pos[0]` and the zodiac lookup run with no error
handling, so any raised exception aborts the whole loop. -/
def calc_planets_main_loop (eph : ℚ → ℕ → EphReply) (jd : ℚ) :
    List (ℕ × String) → Except String (List (String × ℚ × String))
  | [] => Except.ok []
  | p :: rest =>
    match pySubscript0 (eph jd p.1).ret_code with
    | none => Except.error "TypeError: planet position is not subscriptable"
    | some degree =>
      match get_arabic_zodiac_sign degree with
      | none => Except.error "IndexError: list index out of range"
      | some z =>
        match calc_planets_main_loop eph jd rest with
        | Except.error e => Except.error e
        | Except.ok tl => Except.ok ((p.2, pyRound2 degree, z) :: tl)

/-- `calculate_planetary_positions` of main.py (lines 42-51): no per-body
error handling — a failure propagates as an exception. -/
def calculate_planetary_positions_main (eph : ℚ → ℕ → EphReply) (jd : ℚ) :
    Except String (List (String × ℚ × String)) :=
  calc_planets_main_loop eph jd PLANETS_ARABIC

/-- All-digit string to its numeric value (helper for `int()` and
`strptime` field parsing). -/
def digitsToNat (cs : List Char) : Option ℕ :=
  if cs ≠ [] ∧ cs.all Char.isDigit then
    some (cs.foldl (fun a c => 10 * a + (c.toNat - 48)) 0)
  else none

/-- Python `str.split(sep)` for a one-character separator: splits at every
occurrence, keeping empty parts (`"a--b"` gives three parts). -/
def splitOnChar (sep : Char) : List Char → List (List Char)
  | [] => [[]]
  | c :: rest =>
    if c = sep then [] :: splitOnChar sep rest
    else
      match splitOnChar sep rest with
      | [] => [[c]]
      | g :: gs => (c :: g) :: gs

/-- Leading and trailing whitespace removal (Python `int()` strips it). -/
def stripWs (cs : List Char) : List Char :=
  ((cs.dropWhile Char.isWhitespace).reverse.dropWhile Char.isWhitespace).reverse

/-- Python `int(s)` on a string: surrounding whitespace stripped, one
optional sign, then at least one digit; anything else raises `ValueError`
(modelled as `none`). -/
def pyIntOfString (s : List Char) : Option ℤ :=
  match stripWs s with
  | [] => none
  | c :: rest =>
    if c = '-' then (digitsToNat rest).map (fun n => -(n : ℤ))
    else if c = '+' then (digitsToNat rest).map (fun n => (n : ℤ))
    else (digitsToNat (c :: rest)).map (fun n => (n : ℤ))

/-- `map(int, s.split(sep))` with the subsequent tuple unpacking forcing
every element: `none` models the `ValueError` raised by a non-numeric
part. -/
def split_map_int (s : String) (sep : Char) : Option (List ℤ) :=
  (splitOnChar sep s.toList).mapM pyIntOfString

/-- Modelled from the spec: `swe.julday` is the Swiss Ephemeris
collaborator (not under src/); section 4.1 prescribes the standard Julian
Day formula with fractional day `hour/24 + minute/1440 + second/86400`.
This is the standard Gregorian-calendar Julian Day Number
(Fliegel-Van Flandern form) plus the fractional UT hours, so that
`julday y m d h = (JDN of the date) - 1/2 + h/24`. -/
def julday (y m d : ℤ) (hours : ℚ) : ℚ :=
  let a := (14 - m) / 12
  let y4800 := y + 4800 - a
  let mShift := m + 12 * a - 3
  let jdn := d + (153 * mShift + 2) / 5 + 365 * y4800 + y4800 / 4 -
    y4800 / 100 + y4800 / 400 - 32045
  (jdn : ℚ) - 1/2 + hours / 24

/-- `BirthDetails` of main.py (lines 30-35). -/
structure BirthDetailsM where
  name : String
  birth_date : String
  birth_time : String
  latitude : ℚ
  longitude : ℚ
deriving DecidableEq

/-- The success payload of main.py's `calculate_chart` (lines 64-67). -/
structure MainChart where
  name : String
  chart_in_arabic : List (String × ℚ × String)
deriving DecidableEq

/-- `calculate_chart` of main.py (lines 54-67): date and time parsed with
`map(int, ....split(...))` and tuple unpacking, Julian Day from the local
civil time with fractional hour `hour + minute / 60.0`, then the planetary
loop.  There is no `try`/`except` anywhere: every raised exception
(`Except.error`) leaves the handler unhandled. -/
def calculate_chart_main (eph : ℚ → ℕ → EphReply) (details : BirthDetailsM) :
    Except String MainChart :=
  match split_map_int details.birth_date '-' with
  | some [y, m, d] =>
    match split_map_int details.birth_time ':' with
    | some [h, mi] =>
      match calculate_planetary_positions_main eph
          (julday y m d ((h : ℚ) + (mi : ℚ) / 60)) with
      | Except.error e => Except.error e
      | Except.ok planets => Except.ok ⟨details.name, planets⟩
    | _ => Except.error "ValueError: invalid time string"
  | _ => Except.error "ValueError: invalid date string"

/-- The civil date/time produced by `datetime.strptime` in main_arabic.py
line 165 (format `%Y-%m-%d %H:%M`; seconds are always zero). -/
structure CivilDateTime where
  year : ℤ
  month : ℤ
  day : ℤ
  hour : ℤ
  minute : ℤ
deriving DecidableEq

/-- One numeric `strptime` field: nonempty, all digits, at most `maxLen`
digits (the directive's maximum width; a longer run would leave
unconverted data before the literal separator and raise `ValueError`). -/
def parseField (s : List Char) (maxLen : ℕ) : Option ℕ :=
  if s.length ≤ maxLen then digitsToNat s else none

/-- Length of a month under `datetime`'s proleptic Gregorian calendar. -/
def daysInMonth (y m : ℕ) : ℕ :=
  if m = 2 then
    (if (y % 4 = 0 ∧ y % 100 ≠ 0) ∨ y % 400 = 0 then 29 else 28)
  else if m = 4 ∨ m = 6 ∨ m = 9 ∨ m = 11 then 30 else 31

/-- `datetime.strptime(s, "%Y-%m-%d %H:%M")` (main_arabic.py lines
165-167): the literal separators are a single space, two hyphens and one
colon; `%Y` takes up to four digits, the other directives up to two;
`datetime` then enforces year in [1, 9999], a valid calendar month/day,
hour in [0, 23] and minute in [0, 59].  Any mismatch raises `ValueError`. -/
def strptime_ymd_hm (s : String) : Except String CivilDateTime :=
  match splitOnChar ' ' s.toList with
  | [ds, ts] =>
    match splitOnChar '-' ds, splitOnChar ':' ts with
    | [ys, ms, dds], [hs, mis] =>
      match parseField ys 4, parseField ms 2, parseField dds 2,
          parseField hs 2, parseField mis 2 with
      | some y, some m, some d, some h, some mi =>
        if 1 ≤ y ∧ y ≤ 9999 ∧ 1 ≤ m ∧ m ≤ 12 ∧ 1 ≤ d ∧
            d ≤ daysInMonth y m ∧ h ≤ 23 ∧ mi ≤ 59 then
          Except.ok ⟨(y : ℤ), (m : ℤ), (d : ℤ), (h : ℤ), (mi : ℤ)⟩
        else Except.error "ValueError: time data does not match format"
      | _, _, _, _, _ => Except.error "ValueError: time data does not match format"
    | _, _ => Except.error "ValueError: time data does not match format"
  | _ => Except.error "ValueError: time data does not match format"

/-- main_arabic.py lines 168-171: the Julian Day the handler derives from
the parsed civil datetime — the LOCAL civil time fed directly to
`swe.julday` with fractional hour `hour + minute / 60.0`; no timezone or
UTC-offset adjustment is applied anywhere. -/
def chartJulianDay (dt : CivilDateTime) : ℚ :=
  julday dt.year dt.month dt.day ((dt.hour : ℚ) + (dt.minute : ℚ) / 60)

/-- One reply of the `swe.houses` collaborator (main_arabic.py line 120):
either the `(cusps, ascmc)` pair of float tuples, or a raised exception. -/
inductive HousesReply where
  | ok (cusps : List ℚ) (ascmc : List ℚ)
  | exn (msg : String)
deriving DecidableEq

/-- main_arabic.py lines 130-137: the `for i in range(12)` loop building
`houses_data` — `houses[i]` raises `IndexError` past the end, the zodiac
lookup may raise `IndexError`; any raise (modelled `none`) aborts the loop
and is caught by the surrounding `except`. -/
def houseEntries (cusps : List ℚ) : List ℕ → Option (List (String × ℚ × String))
  | [] => some []
  | i :: rest =>
    (cusps.get? i).bind (fun d =>
      (get_arabic_zodiac_sign d).bind (fun z =>
        (houseEntries cusps rest).map (fun tl =>
          ("house_" ++ toString (i + 1), pyRound2 d, z) :: tl)))

/-- The dict returned by `calculate_houses_and_ascendant`: either the
`houses`/`ascendant` data, or the error dict
`{"error": "Could not calculate houses and Ascendant"}` built by the
`except` clause (main_arabic.py lines 152-154). -/
inductive HousesResult where
  | ok (houses : List (String × ℚ × String)) (ascendant : ℚ × String)
  | err
deriving DecidableEq

/-- `calculate_houses_and_ascendant` (main_arabic.py lines 111-154) applied
to the collaborator's reply: reads `ascendant[0]`, builds the 12 house
entries, annotates the ascendant; every raised exception inside the `try`
is converted to the error dict. -/
def calculate_houses_and_ascendant (reply : HousesReply) : HousesResult :=
  match reply with
  | HousesReply.exn _ => HousesResult.err
  | HousesReply.ok cusps ascmc =>
    match ascmc.get? 0 with
    | none => HousesResult.err
    | some ad =>
      match houseEntries cusps (List.range 12) with
      | none => HousesResult.err
      | some hs =>
        match get_arabic_zodiac_sign ad with
        | none => HousesResult.err
        | some az => HousesResult.ok hs (pyRound2 ad, az)

/-- `BirthDetails` of main_arabic.py (lines 41-45). -/
structure BirthDetails where
  name : String
  birth_date : String
  birth_time : String
  location : String
deriving DecidableEq

/-- The response dict of main_arabic.py's full `calculate_chart` handler:
the chart (lines 185-191), the `except ValueError` payload
`{"error": str(e)}` (line 196), or the `except Exception` payload
`{"error": "Internal Server Error", "details": str(e)}` (line 200). -/
inductive ChartResponse where
  | chart (name : String) (chart_in_arabic : List (String × BodyRecord))
      (ascendant : ℚ × String) (houses : List (String × ℚ × String))
      (location : ℚ × ℚ)
  | error (msg : String)
  | internalError (details : String)
deriving DecidableEq

/-- Whether a response is an assembled chart. -/
def isChart : ChartResponse → Bool
  | ChartResponse.chart .. => true
  | _ => false

/-- The top-level error tag of a response dict (`none` for a chart). -/
def errorTag : ChartResponse → Option String
  | ChartResponse.chart .. => none
  | ChartResponse.error e => some e
  | ChartResponse.internalError _ => some "Internal Server Error"

/-- Whether a houses result is the success dict. -/
def isOkHouses : HousesResult → Bool
  | HousesResult.ok .. => true
  | HousesResult.err => false

/-- The full `calculate_chart` handler of main_arabic.py (lines 158-200):
parse the civil datetime, derive the Julian Day from the local time,
geocode, compute planets and houses, assemble the response.  A `ValueError`
(from parsing or from `get_coordinates`) is returned as `{"error": str(e)}`;
when `calculate_houses_and_ascendant` returned its error dict, the access
`houses_and_ascendant["ascendant"]` on line 188 raises
`KeyError("ascendant")`, which the `except Exception` clause turns into
`{"error": "Internal Server Error", "details": "KeyError: ascendant"}`. -/
def calculate_chart_arabic (geo : String → Except String (ℚ × ℚ))
    (eph : ℚ → ℕ → EphReply) (housesOracle : ℚ → ℚ → ℚ → HousesReply)
    (details : BirthDetails) : ChartResponse :=
  match strptime_ymd_hm (details.birth_date ++ " " ++ details.birth_time) with
  | Except.error e => ChartResponse.error e
  | Except.ok dt =>
    match geo details.location with
    | Except.error e => ChartResponse.error e
    | Except.ok (lat, lon) =>
      match calculate_houses_and_ascendant
          (housesOracle (chartJulianDay dt) lat lon) with
      | HousesResult.err => ChartResponse.internalError "KeyError: ascendant"
      | HousesResult.ok hs asc =>
        ChartResponse.chart details.name
          (calculate_planetary_positions eph (chartJulianDay dt))
          asc hs (lat, lon)

/-- Modelled from the spec: no aspect-detection code exists under src/;
spec section 4.6 prescribes the raw separation `d = |lon_a - lon_b| mod 360`.
Rational modulo-360 reduction into [0, 360). -/
def qmod360 (x : ℚ) : ℚ := x - 360 * ⌊x / 360⌋

/-- Modelled from the spec (4.6): the true angular separation
`angle = d if d <= 180 else 360 - d` of two ecliptic longitudes. -/
def trueSeparation (a b : ℚ) : ℚ :=
  let d := qmod360 |a - b|
  if d ≤ 180 then d else 360 - d

/-- Modelled from the spec (4.6): the fixed reference-angle table. -/
def ASPECT_TABLE : List (ℚ × String) :=
  [(0, "conjunction"), (60, "sextile"), (90, "square"),
   (120, "trine"), (180, "opposition")]

/-- Modelled from the spec (4.6): classification of a separation angle
against the reference table with the default ±5° orb; no match within orb
means no aspect record. -/
def classifyAspect (angle : ℚ) : Option String :=
  (ASPECT_TABLE.find? (fun ref => decide (|angle - ref.1| ≤ 5))).map Prod.snd

/-- Modelled from the spec (4.6, §3 Aspect): examine every unordered pair
of resolved positions exactly once, in enumeration order — each element is
paired with the elements after it, never with the ones before. -/
def detectAspects : List (String × ℚ) → List (String × String × String)
  | [] => []
  | p :: rest =>
    rest.filterMap (fun q =>
      (classifyAspect (trueSeparation p.2 q.2)).map (fun c => (p.1, q.1, c))) ++
    detectAspects rest

/-- The two `/calculate_chart/` handler bodies defined in main_arabic.py:
the full chart pipeline (lines 159-200) and the later stub (lines 216-218)
that echoes its input without touching any collaborator. -/
inductive Handler where
  | fullChart
  | stub
deriving DecidableEq

/-- A FastAPI application instance: its registered post routes. -/
structure FastAPIApp where
  routes : List (String × Handler)
deriving DecidableEq

/-- `@app.post(path)` route registration. -/
def registerRoute (a : FastAPIApp) (path : String) (h : Handler) : FastAPIApp :=
  ⟨a.routes ++ [(path, h)]⟩

/-- Route lookup on an application instance. -/
def lookupRoute (a : FastAPIApp) (path : String) : Option Handler :=
  (a.routes.find? (fun r => r.1 = path)).map Prod.snd

/-- The `app` bound at main_arabic.py line 110 after the decorator at line
158 registered the full handler on it. -/
def app_after_line_158 : FastAPIApp :=
  registerRoute ⟨[]⟩ "/calculate_chart/" Handler.fullChart

/-- main_arabic.py line 204 rebinds the module-level name `app` to a fresh
`FastAPI()` instance; line 215 then registers the stub handler on it.  This
is the final value of the module attribute `app`, the one
`uvicorn.run("main_arabic:app", ...)` (lines 222-225) serves. -/
def main_arabic_final_app : FastAPIApp :=
  registerRoute ⟨[]⟩ "/calculate_chart/" Handler.stub

/-- The external collaborators a handler could consult. -/
structure Collaborators where
  geo : String → Except String (ℚ × ℚ)
  eph : ℚ → ℕ → EphReply
  houses : ℚ → ℚ → ℚ → HousesReply

/-- A handler's response: the full pipeline's `ChartResponse`, or the
stub's `{"message": "Chart calculated successfully", "data": <input>}`. -/
inductive HandlerResult where
  | full (r : ChartResponse)
  | stubbed (message : String) (data : BirthDetails)
deriving DecidableEq

/-- Dispatching a request to one of the two registered handler bodies. -/
def runHandler (h : Handler) (c : Collaborators) (d : BirthDetails) :
    HandlerResult :=
  match h with
  | Handler.fullChart => HandlerResult.full (calculate_chart_arabic c.geo c.eph c.houses d)
  | Handler.stub => HandlerResult.stubbed "Chart calculated successfully" d

/-- A well-behaved ephemeris oracle: every body at longitude 123 with
success status 0. -/
def ephGood : ℚ → ℕ → EphReply :=
  fun _ _ => ⟨PyVal.seq [123], PyVal.int 0⟩

/-- An ephemeris oracle whose reply for the Sun (body 0) signals a
calculation failure (status -1, malformed position); all other bodies
succeed at longitude 15. -/
def ephBad : ℚ → ℕ → EphReply :=
  fun _ p => if p = 0 then ⟨PyVal.other, PyVal.int (-1)⟩
    else ⟨PyVal.seq [15], PyVal.int 0⟩

/-- A geocoding oracle resolving every location to (30, 31). -/
def geoStub : String → Except String (ℚ × ℚ) :=
  fun _ => Except.ok ((30 : ℚ), (31 : ℚ))

/-- A houses oracle returning twelve equally spaced cusps and an
ascendant tuple. -/
def housesStub : ℚ → ℚ → ℚ → HousesReply :=
  fun _ _ _ => HousesReply.ok
    [10, 40, 70, 100, 130, 160, 190, 220, 250, 280, 310, 340] [10, 100]

/-- A houses oracle returning only eleven cusps (a short, malformed
reply). -/
def housesShort : ℚ → ℚ → ℚ → HousesReply :=
  fun _ _ _ => HousesReply.ok
    [10, 40, 70, 100, 130, 160, 190, 220, 250, 280, 310] [10]

/-- If the house-cusp loop succeeded, every visited index was in bounds;
contrapositive: a missing index aborts the loop with an exception. -/
lemma houseEntries_none : ∀ (idxs : List ℕ) (cusps : List ℚ) (i : ℕ),
    i ∈ idxs → cusps.get? i = none → houseEntries cusps idxs = none := by
  intro idxs
  induction idxs with
  | nil => intro cusps i hi _; simp at hi
  | cons j rest ih =>
    intro cusps i hi hnone
    rcases List.mem_cons.mp hi with rfl | hi₂
    · simp only [houseEntries, hnone, Option.none_bind]
    · have hrest := ih cusps i hi₂ hnone
      simp only [houseEntries, hrest, Option.map_none']
      cases cusps.get? j with
      | none => rfl
      | some d =>
        simp only [Option.some_bind]
        cases get_arabic_zodiac_sign d with
        | none => rfl
        | some z => rfl

/-- A `swe.houses` reply with fewer than 12 cusps makes
`calculate_houses_and_ascendant` return its error dict: the loop hits an
out-of-range index and the `except` clause fires. -/
lemma houses_err_of_short : ∀ (cusps ascmc : List ℚ), cusps.length < 12 →
    calculate_houses_and_ascendant (HousesReply.ok cusps ascmc) = HousesResult.err := by
  intro cusps ascmc hlen
  have h11 : houseEntries cusps (List.range 12) = none :=
    houseEntries_none _ _ 11 (by simp) (List.get?_eq_none.mpr (by omega))
  simp only [calculate_houses_and_ascendant, h11]
  cases ascmc.get? 0 <;> rfl

/-- When parsing and geocoding succeed but the houses computation produced
its error dict, the full handler returns the generic internal-error
payload raised by the `KeyError` on line 188. -/
lemma chart_of_houses_err :
    ∀ (geo : String → Except String (ℚ × ℚ)) (eph : ℚ → ℕ → EphReply)
      (ho : ℚ → ℚ → ℚ → HousesReply) (details : BirthDetails)
      (dt : CivilDateTime) (lat lon : ℚ),
    strptime_ymd_hm (details.birth_date ++ " " ++ details.birth_time) = Except.ok dt →
    geo details.location = Except.ok (lat, lon) →
    calculate_houses_and_ascendant (ho (chartJulianDay dt) lat lon) = HousesResult.err →
    calculate_chart_arabic geo eph ho details =
      ChartResponse.internalError "KeyError: ascendant" := by
  intro geo eph ho details dt lat lon hp hg hh
  simp only [calculate_chart_arabic, hp, hg, hh]

/-- When parsing, geocoding and the houses computation all succeed, the
full handler assembles a chart. -/
lemma chart_isChart_of_ok :
    ∀ (geo : String → Except String (ℚ × ℚ)) (eph : ℚ → ℕ → EphReply)
      (ho : ℚ → ℚ → ℚ → HousesReply) (details : BirthDetails)
      (dt : CivilDateTime) (lat lon : ℚ),
    strptime_ymd_hm (details.birth_date ++ " " ++ details.birth_time) = Except.ok dt →
    geo details.location = Except.ok (lat, lon) →
    isOkHouses (calculate_houses_and_ascendant (ho (chartJulianDay dt) lat lon)) = true →
    isChart (calculate_chart_arabic geo eph ho details) = true := by
  intro geo eph ho details dt lat lon hp hg hok
  simp only [calculate_chart_arabic, hp, hg]
  cases hh : calculate_houses_and_ascendant (ho (chartJulianDay dt) lat lon) with
  | ok hs asc => rfl
  | err => rw [hh] at hok; exact absurd hok (by simp [isOkHouses])

/-- The twelve-cusp stub reply always yields the success dict. -/
lemma stub_houses_isOk : ∀ j a b : ℚ,
    isOkHouses (calculate_houses_and_ascendant (housesStub j a b)) = true := by
  intro j a b
  norm_num [housesStub, calculate_houses_and_ascendant, houseEntries,
    get_arabic_zodiac_sign, pyListGet, ARABIC_ZODIAC_SIGNS, pyRound2,
    List.range, List.range.loop, isOkHouses]

/-- C1 (counterexample): for birth date 1990-06-15, time 14:30, the Julian
Day the handler computes is NOT the Julian Day of 1990-06-15 12:30:00 UTC
(the value the claim requires under the fixed UTC+2 offset) — the code
applies no timezone adjustment at all. -/
theorem claim_C1_counterexample :
    chartJulianDay ⟨1990, 6, 15, 14, 30⟩ ≠ julday 1990 6 15 (25 / 2) := by
  norm_num [chartJulianDay, julday]

/-- C1 (amended): the handler derives the Julian Day from the civil LOCAL
time with fractional hour `hour + minute/60` and no UTC-offset adjustment;
for the 1990-06-15 14:30 scenario it equals the Julian Day of
1990-06-15 14:30 UT, which exceeds the 12:30-UTC value by exactly
1/12 day (two hours). -/
theorem claim_C1_theorem :
    chartJulianDay ⟨1990, 6, 15, 14, 30⟩ = julday 1990 6 15 (29 / 2) ∧
    julday 1990 6 15 (29 / 2) = julday 1990 6 15 (25 / 2) + 1 / 12 := by
  constructor
  · norm_num [chartJulianDay, julday]
  · norm_num [julday]

/-- C4 (counterexample): with a houses collaborator returning only eleven
cusps, the request does fail as a whole, but the structured error is the
generic `Internal Server Error` payload produced by the `KeyError` on the
internal error dict — not an error of kind `HouseCalculationError`. -/
theorem claim_C4_counterexample :
    calculate_chart_arabic geoStub ephGood housesShort
        ⟨"X", "1990-06-15", "14:30", "Cairo"⟩ =
      ChartResponse.internalError "KeyError: ascendant" ∧
    errorTag (calculate_chart_arabic geoStub ephGood housesShort
        ⟨"X", "1990-06-15", "14:30", "Cairo"⟩) = some "Internal Server Error" := by
  have h : calculate_chart_arabic geoStub ephGood housesShort
      ⟨"X", "1990-06-15", "14:30", "Cairo"⟩ =
      ChartResponse.internalError "KeyError: ascendant" :=
    chart_of_houses_err geoStub ephGood housesShort _ ⟨1990, 6, 15, 14, 30⟩ 30 31
      rfl rfl
      (by rw [show housesShort (chartJulianDay ⟨1990, 6, 15, 14, 30⟩) 30 31 =
            HousesReply.ok [10, 40, 70, 100, 130, 160, 190, 220, 250, 280, 310] [10]
            from rfl]
          exact houses_err_of_short _ _ (by norm_num))
  exact ⟨h, by rw [h]; rfl⟩

/-- C4 (amended): if the houses collaborator returns fewer than 12 cusps,
the request fails as a whole and no chart is assembled — but the response
is the generic payload of kind `Internal Server Error` with a `KeyError`
detail, not a `HouseCalculationError`. -/
theorem claim_C4_theorem :
    ∀ (geo : String → Except String (ℚ × ℚ)) (eph : ℚ → ℕ → EphReply)
      (ho : ℚ → ℚ → ℚ → HousesReply) (details : BirthDetails)
      (dt : CivilDateTime) (lat lon : ℚ) (cusps ascmc : List ℚ),
    strptime_ymd_hm (details.birth_date ++ " " ++ details.birth_time) = Except.ok dt →
    geo details.location = Except.ok (lat, lon) →
    ho (chartJulianDay dt) lat lon = HousesReply.ok cusps ascmc →
    cusps.length < 12 →
    calculate_chart_arabic geo eph ho details =
      ChartResponse.internalError "KeyError: ascendant" := by
  intro geo eph ho details dt lat lon cusps ascmc hp hg hh hlen
  exact chart_of_houses_err geo eph ho details dt lat lon hp hg
    (by rw [hh]; exact houses_err_of_short cusps ascmc hlen)

/-- C4 (witness): the amended theorem applied at a concrete request and an
eleven-cusp collaborator reply. -/
theorem claim_C4_witness :
    (([(10 : ℚ), 40, 70, 100, 130, 160, 190, 220, 250, 280, 310]).length < 12) ∧
    calculate_chart_arabic geoStub ephGood housesShort
        ⟨"W", "1991-03-02", "05:45", "Cairo"⟩ =
      ChartResponse.internalError "KeyError: ascendant" :=
  ⟨by norm_num,
   claim_C4_theorem geoStub ephGood housesShort _ ⟨1991, 3, 2, 5, 45⟩ 30 31 _ _
     rfl rfl rfl (by norm_num)⟩

/-- C5 (counterexample): main.py's handler has no exception handling, so a
malformed birth-date string makes the `ValueError` from `int()` propagate
out of the handler as an unhandled fault instead of a tagged payload. -/
theorem claim_C5_counterexample :
    calculate_chart_main ephGood ⟨"X", "June 15, 1990", "14:30", 0, 0⟩ =
      Except.error "ValueError: invalid date string" := rfl

/-- C5 (amended): in main_arabic.py every failure path of the handler
returns a tagged payload — in particular a malformed date/time string
yields `{"error": <the ValueError message>}` (not an
`InvalidDateTimeFormat` kind); main.py's handler, by contrast, propagates
the parsing exception unhandled. -/
theorem claim_C5_theorem :
    ∀ (geo : String → Except String (ℚ × ℚ)) (eph : ℚ → ℕ → EphReply)
      (ho : ℚ → ℚ → ℚ → HousesReply) (details : BirthDetails) (e : String),
    strptime_ymd_hm (details.birth_date ++ " " ++ details.birth_time) =
      Except.error e →
    calculate_chart_arabic geo eph ho details = ChartResponse.error e := by
  intro geo eph ho details e hp
  simp only [calculate_chart_arabic, hp]

/-- C5 (witness): the amended theorem applied at a concrete malformed
date. -/
theorem claim_C5_witness :
    strptime_ymd_hm ("nope" ++ " " ++ "14:30") =
      Except.error "ValueError: time data does not match format" ∧
    calculate_chart_arabic geoStub ephGood housesStub
        ⟨"Y", "nope", "14:30", "Cairo"⟩ =
      ChartResponse.error "ValueError: time data does not match format" :=
  ⟨rfl, claim_C5_theorem geoStub ephGood housesStub
    ⟨"Y", "nope", "14:30", "Cairo"⟩ _ rfl⟩

/-- C6 (counterexample): a request with birth year 1700 is NOT rejected —
with succeeding collaborators the handler assembles and returns a chart;
no `DateOutOfRange` (or any year-range) check exists in the code. -/
theorem claim_C6_counterexample :
    isChart (calculate_chart_arabic geoStub ephGood housesStub
      ⟨"X", "1700-06-15", "14:30", "Cairo"⟩) = true :=
  chart_isChart_of_ok geoStub ephGood housesStub _ ⟨1700, 6, 15, 14, 30⟩ 30 31
    rfl rfl (stub_houses_isOk _ _ _)

/-- C6 (amended): the code performs no year-range validation: any year the
`datetime` parser accepts (1..9999) is processed, and when the
collaborators succeed a chart is computed even for years outside
[1800, 2400] — the year bound is irrelevant to the outcome. -/
theorem claim_C6_theorem :
    ∀ (geo : String → Except String (ℚ × ℚ)) (eph : ℚ → ℕ → EphReply)
      (ho : ℚ → ℚ → ℚ → HousesReply) (details : BirthDetails)
      (dt : CivilDateTime) (lat lon : ℚ),
    strptime_ymd_hm (details.birth_date ++ " " ++ details.birth_time) = Except.ok dt →
    (dt.year < 1800 ∨ 2400 < dt.year) →
    geo details.location = Except.ok (lat, lon) →
    isOkHouses (calculate_houses_and_ascendant (ho (chartJulianDay dt) lat lon)) = true →
    isChart (calculate_chart_arabic geo eph ho details) = true := by
  intro geo eph ho details dt lat lon hp _ hg hok
  exact chart_isChart_of_ok geo eph ho details dt lat lon hp hg hok

/-- C6 (witness): the amended theorem applied to the year 2500 with
succeeding collaborator stubs. -/
theorem claim_C6_witness :
    ((2400 : ℤ) < 2500) ∧
    isChart (calculate_chart_arabic geoStub ephGood housesStub
      ⟨"Z", "2500-01-01", "00:00", "Cairo"⟩) = true :=
  ⟨by norm_num,
   claim_C6_theorem geoStub ephGood housesStub _ ⟨2500, 1, 1, 0, 0⟩ 30 31
     rfl (Or.inr (by norm_num)) rfl (stub_houses_isOk _ _ _)⟩

/-- C8: determinism — both handlers are pure functions of the request and
the collaborator responses, so two runs on equal inputs with the same
collaborators produce identical output. -/
theorem claim_C8_theorem :
    (∀ (c : Collaborators) (d₁ d₂ : BirthDetails), d₁ = d₂ →
      calculate_chart_arabic c.geo c.eph c.houses d₁ =
        calculate_chart_arabic c.geo c.eph c.houses d₂) ∧
    (∀ (eph : ℚ → ℕ → EphReply) (m₁ m₂ : BirthDetailsM), m₁ = m₂ →
      calculate_chart_main eph m₁ = calculate_chart_main eph m₂) :=
  ⟨fun _ _ _ h => by rw [h], fun _ _ _ h => by rw [h]⟩

/-- C8 (witness): the determinism theorem applied at a concrete request
and concrete collaborators. -/
theorem claim_C8_witness :
    calculate_chart_arabic geoStub ephGood housesStub
        ⟨"W", "1990-06-15", "14:30", "Cairo"⟩ =
      calculate_chart_arabic geoStub ephGood housesStub
        ⟨"W", "1990-06-15", "14:30", "Cairo"⟩ :=
  claim_C8_theorem.1 ⟨geoStub, ephGood, housesStub⟩ _ _ rfl

/-- C9: the module's final `app` (rebound at main_arabic.py line 204 after
the full handler was registered on the first instance) serves the stub
handler on `/calculate_chart/`, which echoes its input with the fixed
success message and never consults any collaborator. -/
theorem claim_C9_theorem :
    lookupRoute app_after_line_158 "/calculate_chart/" = some Handler.fullChart ∧
    lookupRoute main_arabic_final_app "/calculate_chart/" = some Handler.stub ∧
    (∀ (c : Collaborators) (d : BirthDetails),
      runHandler Handler.stub c d =
        HandlerResult.stubbed "Chart calculated successfully" d) ∧
    (∀ (c₁ c₂ : Collaborators) (d : BirthDetails),
      runHandler Handler.stub c₁ d = runHandler Handler.stub c₂ d) :=
  ⟨rfl, rfl, fun _ _ => rfl, fun _ _ _ => rfl⟩

/-- C2: for every longitude L in [0, 360), the sign index `⌊L / 30⌋` used
by `get_arabic_zodiac_sign` lies in [0, 12), brackets L within its
30-degree sector, and selects exactly the sign at that index; boundary
cases: L = 0.0 maps to index 0 (الحمل) and L = 359.999 to index 11
(الحوت). -/
theorem claim_C2_theorem : ∀ L : ℚ, 0 ≤ L → L < 360 →
    ((0 ≤ ⌊L / 30⌋ ∧ ⌊L / 30⌋ < 12) ∧
     ((⌊L / 30⌋ : ℚ) * 30 ≤ L ∧ L < (⌊L / 30⌋ : ℚ) * 30 + 30) ∧
     get_arabic_zodiac_sign L = ARABIC_ZODIAC_SIGNS.get? (⌊L / 30⌋).toNat) ∧
    (⌊(0 : ℚ) / 30⌋ = 0 ∧ ⌊(359999 / 1000 : ℚ) / 30⌋ = 11 ∧
     get_arabic_zodiac_sign 0 = some "الحمل" ∧
     get_arabic_zodiac_sign (359999 / 1000) = some "الحوت") := by
  intro L h0 h360
  have h30 : (0 : ℚ) < 30 := by norm_num
  have hfl : (0 : ℤ) ≤ ⌊L / 30⌋ := Int.floor_nonneg.mpr (div_nonneg h0 (le_of_lt h30))
  have hfu : ⌊L / 30⌋ < 12 := by
    rw [Int.floor_lt, div_lt_iff₀ h30]
    push_cast
    linarith
  have hle : (⌊L / 30⌋ : ℚ) ≤ L / 30 := Int.floor_le _
  have hlt : L / 30 < (⌊L / 30⌋ : ℚ) + 1 := Int.lt_floor_add_one _
  have hcancel : L / 30 * 30 = L := div_mul_cancel₀ L (ne_of_gt h30)
  have hmul : (⌊L / 30⌋ : ℚ) * 30 ≤ L := by
    have := mul_le_mul_of_nonneg_right hle (le_of_lt h30)
    rwa [hcancel] at this
  have hmul2 : L < (⌊L / 30⌋ : ℚ) * 30 + 30 := by
    have := mul_lt_mul_of_pos_right hlt h30
    rw [hcancel] at this
    linarith
  refine ⟨⟨⟨hfl, hfu⟩, ⟨hmul, hmul2⟩, ?_⟩, by norm_num, by norm_num, ?_, ?_⟩
  · unfold get_arabic_zodiac_sign pyListGet
    rw [if_pos hfl]
  · norm_num [get_arabic_zodiac_sign, pyListGet, ARABIC_ZODIAC_SIGNS]
  · norm_num [get_arabic_zodiac_sign, pyListGet, ARABIC_ZODIAC_SIGNS]
    rfl

/-- C2 (witness): the theorem applied at the boundary longitude
359.999. -/
theorem claim_C2_witness :
    (0 : ℚ) ≤ 359999 / 1000 ∧ (359999 / 1000 : ℚ) < 360 ∧
    get_arabic_zodiac_sign (359999 / 1000) =
      ARABIC_ZODIAC_SIGNS.get? (⌊(359999 / 1000 : ℚ) / 30⌋).toNat :=
  ⟨by norm_num, by norm_num,
   ((claim_C2_theorem (359999 / 1000) (by norm_num) (by norm_num)).1).2.2⟩

/-- C3 (counterexample): in main.py, an ephemeris failure for the Sun
aborts the whole chart request — nothing is recorded for the remaining
nine bodies, contradicting the claimed soft-failure policy for every
chart computation. -/
theorem claim_C3_counterexample :
    calculate_chart_main ephBad ⟨"X", "1990-06-15", "14:30", 0, 0⟩ =
      Except.error "TypeError: planet position is not subscriptable" := rfl

/-- C3 (amended): in main_arabic.py the soft-failure policy holds — every
body of `PLANETS_ARABIC` gets exactly one record in the result, a body
whose reply signals a calculation failure gets an error record, and the
chart of all ten bodies is still produced; main.py's version, by
contrast, aborts on the first failure. -/
theorem claim_C3_theorem :
    ∀ (eph : ℚ → ℕ → EphReply) (jd : ℚ) (pid : ℕ) (name : String),
    (pid, name) ∈ PLANETS_ARABIC →
    (name, processBody (eph jd pid)) ∈ calculate_planetary_positions eph jd ∧
    (signalsFailure (eph jd pid) = true →
      ∃ m, processBody (eph jd pid) = BodyRecord.err m) ∧
    (calculate_planetary_positions eph jd).length = PLANETS_ARABIC.length := by
  intro eph jd pid name hmem
  refine ⟨?_, ?_, ?_⟩
  · exact List.mem_map.mpr ⟨(pid, name), hmem, rfl⟩
  · intro hf
    rcases hr : eph jd pid with ⟨pos, ret⟩
    rw [hr] at hf
    cases ret with
    | int n =>
      by_cases hn : n < 0
      · exact ⟨"Calculation error", by simp [processBody, hn]⟩
      · cases pos with
        | int k => exact ⟨"Invalid position data", by simp [processBody, hn, checkPos]⟩
        | other => exact ⟨"Invalid position data", by simp [processBody, hn, checkPos]⟩
        | seq xs =>
          cases xs with
          | nil => exact ⟨"Invalid position data", by simp [processBody, hn, checkPos]⟩
          | cons a tl => simp [signalsFailure, hn] at hf
    | seq xs => exact ⟨"Calculation error", by simp [processBody]⟩
    | other => exact ⟨"Calculation error", by simp [processBody]⟩
  · exact List.length_map _ _

/-- C3 (witness): the amended theorem applied to the failing-Sun oracle —
the Sun's reply signals failure and its record is an error record, while
the Sun still has an entry in the produced chart. -/
theorem claim_C3_witness :
    ((0 : ℕ), "الشمس") ∈ PLANETS_ARABIC ∧
    signalsFailure (ephBad 0 0) = true ∧
    (∃ m, processBody (ephBad 0 0) = BodyRecord.err m) ∧
    ("الشمس", processBody (ephBad 0 0)) ∈ calculate_planetary_positions ephBad 0 :=
  ⟨by decide, by decide,
   (claim_C3_theorem ephBad 0 0 "الشمس" (by decide)).2.1 (by decide),
   (claim_C3_theorem ephBad 0 0 "الشمس" (by decide)).1⟩

/-- Structure of the pair enumeration: every emitted aspect `(x, y, c)`
comes from two positions at indices `i < j` of the input list, with `x`
the name at the earlier index and `y` the name at the later one. -/
lemma detect_mem_index : ∀ (ps : List (String × ℚ)) (x y c : String),
    (x, y, c) ∈ detectAspects ps →
    ∃ i j px py, i < j ∧ ps.get? i = some px ∧ ps.get? j = some py ∧
      px.1 = x ∧ py.1 = y := by
  intro ps
  induction ps with
  | nil => intro x y c h; simp [detectAspects] at h
  | cons p rest ih =>
    intro x y c h
    rw [detectAspects] at h
    rcases List.mem_append.mp h with h₁ | h₂
    · rcases List.mem_filterMap.mp h₁ with ⟨q, hq, hf⟩
      rcases Option.map_eq_some'.mp hf with ⟨c₀, _, heq⟩
      rw [Prod.mk.injEq, Prod.mk.injEq] at heq
      obtain ⟨hx, hy, _⟩ := heq
      rcases List.mem_iff_get?.mp hq with ⟨j, hj⟩
      exact ⟨0, j + 1, p, q, Nat.succ_pos j, rfl, by simpa using hj, hx, hy⟩
    · rcases ih x y c h₂ with ⟨i, j, px, py, hij, hi, hj, hx, hy⟩
      exact ⟨i + 1, j + 1, px, py, Nat.succ_lt_succ hij, by simpa using hi,
        by simpa using hj, hx, hy⟩

/-- C7: the aspect detector computes the true separation
`d = |lon_a - lon_b| mod 360`, folded to [0, 180]; bodies at 10° and 190°
are classified as an opposition; and no pair is ever emitted in both
orders — each unordered pair is examined exactly once.  (Modelled from the
spec, section 4.6: no aspect-detection code exists under src/.) -/
theorem claim_C7_theorem :
    trueSeparation 10 190 = 180 ∧
    classifyAspect (trueSeparation 10 190) = some "opposition" ∧
    ∀ (ps : List (String × ℚ)) (x y c : String), (ps.map Prod.fst).Nodup →
      (x, y, c) ∈ detectAspects ps → ¬ ∃ m, (y, x, m) ∈ detectAspects ps := by
  refine ⟨by norm_num [trueSeparation, qmod360], ?_, ?_⟩
  · norm_num [trueSeparation, qmod360, classifyAspect, ASPECT_TABLE, List.find?]
  · intro ps x y c hnd hxy hex
    rcases hex with ⟨m, hyx⟩
    obtain ⟨i, j, px, py, hij, hi, hj, hpx, hpy⟩ := detect_mem_index ps x y c hxy
    obtain ⟨i₂, j₂, qx, qy, hij₂, hi₂, hj₂, hqx, hqy⟩ := detect_mem_index ps y x m hyx
    have mi : (ps.map Prod.fst).get? i = some x := by
      rw [List.get?_map, hi, Option.map_some', hpx]
    have mj : (ps.map Prod.fst).get? j = some y := by
      rw [List.get?_map, hj, Option.map_some', hpy]
    have mi₂ : (ps.map Prod.fst).get? i₂ = some y := by
      rw [List.get?_map, hi₂, Option.map_some', hqx]
    have mj₂ : (ps.map Prod.fst).get? j₂ = some x := by
      rw [List.get?_map, hj₂, Option.map_some', hqy]
    have hleni : i < (ps.map Prod.fst).length := (List.get?_eq_some.mp mi).1
    have hlenj : j < (ps.map Prod.fst).length := (List.get?_eq_some.mp mj).1
    have e1 : i = j₂ := List.get?_inj hleni hnd (mi.trans mj₂.symm)
    have e2 : j = i₂ := List.get?_inj hlenj hnd (mj.trans mi₂.symm)
    omega

/-- C7 (witness): the symmetry statement applied to the two-body scenario
list — (A, B, opposition) is detected and no (B, A, _) record exists. -/
theorem claim_C7_witness :
    (("A", "B", "opposition") ∈ detectAspects [("A", (10 : ℚ)), ("B", 190)]) ∧
    ¬ ∃ m, ("B", "A", m) ∈ detectAspects [("A", (10 : ℚ)), ("B", 190)] := by
  have hc : classifyAspect (trueSeparation 10 190) = some "opposition" :=
    claim_C7_theorem.2.1
  have hmem : ("A", "B", "opposition") ∈ detectAspects [("A", (10 : ℚ)), ("B", 190)] := by
    simp [detectAspects, hc]
  exact ⟨hmem, claim_C7_theorem.2.2 _ "A" "B" "opposition" (by decide) hmem⟩

/-- C10: the sign mapper is not total — every degree in [360, 390) indexes
past the end of the 12-sign list and raises `IndexError`, while every
degree in [-360, 0) silently selects a sign through Python negative
indexing (`ARABIC_ZODIAC_SIGNS[len + index]`) instead of failing. -/
theorem claim_C10_theorem :
    (∀ d : ℚ, 360 ≤ d → d < 390 → get_arabic_zodiac_sign d = none) ∧
    (∀ d : ℚ, -360 ≤ d → d < 0 →
      (get_arabic_zodiac_sign d).isSome = true ∧
      get_arabic_zodiac_sign d =
        ARABIC_ZODIAC_SIGNS.get? ((ARABIC_ZODIAC_SIGNS.length : ℤ) + ⌊d / 30⌋).toNat) := by
  have h30 : (0 : ℚ) < 30 := by norm_num
  constructor
  · intro d h1 h2
    have hfl : ⌊d / 30⌋ = 12 := by
      have hl : (12 : ℤ) ≤ ⌊d / 30⌋ := by
        rw [Int.le_floor, le_div_iff₀ h30]
        push_cast
        linarith
      have hu : ⌊d / 30⌋ < 13 := by
        rw [Int.floor_lt, div_lt_iff₀ h30]
        push_cast
        linarith
      omega
    unfold get_arabic_zodiac_sign
    rw [hfl]
    rfl
  · intro d h1 h2
    have hl : (-12 : ℤ) ≤ ⌊d / 30⌋ := by
      rw [Int.le_floor, le_div_iff₀ h30]
      push_cast
      linarith
    have hu : ⌊d / 30⌋ < 0 := by
      rw [Int.floor_lt]
      push_cast
      exact div_neg_of_neg_of_pos h2 h30
    unfold get_arabic_zodiac_sign
    obtain ⟨k, hk⟩ : ∃ k : ℤ, ⌊d / 30⌋ = k := ⟨_, rfl⟩
    rw [hk] at hl hu ⊢
    have hu₂ : k ≤ -1 := by omega
    interval_cases k <;> exact ⟨rfl, rfl⟩

/-- C10 (witness): the non-totality theorem applied at degrees 365
(IndexError) and -45 (a sign via negative indexing). -/
theorem claim_C10_witness :
    ((360 : ℚ) ≤ 365 ∧ (365 : ℚ) < 390 ∧ get_arabic_zodiac_sign 365 = none) ∧
    ((-360 : ℚ) ≤ -45 ∧ (-45 : ℚ) < 0 ∧ (get_arabic_zodiac_sign (-45)).isSome = true) :=
  ⟨⟨by norm_num, by norm_num, claim_C10_theorem.1 365 (by norm_num) (by norm_num)⟩,
   ⟨by norm_num, by norm_num,
    (claim_C10_theorem.2 (-45) (by norm_num) (by norm_num)).1⟩⟩
